import Mathlib

set_option linter.unusedSectionVars false

/-!
Verification of the `diagrams` core (`src/diagrams/__init__.py`) of the
chalk repository.

The Python code is shallowly embedded over an arbitrary field `R`
(instantiated with `ℚ` for concrete evaluation; Python floats are modelled
as exact field elements).  The backend is pycairo; the parts of its API the
code touches are modelled from cairo's documented semantics:

* `cairo.Matrix()` is the identity matrix with fields
  `xx, yx, xy, yy, x0, y0`, transforming a point by
  `x' = xx*x + xy*y + x0`, `y' = yx*x + yy*y + y0`.
* `a.multiply(b)` returns the matrix whose effect is to first apply `a`
  to the coordinates and then apply `b` (cairo_matrix_multiply).
* `Matrix.scale(sx, sy)` / `Matrix.translate(tx, ty)` mutate the matrix
  IN PLACE (prepending the scale/translation) and return `None`.
* `Matrix.init_rotate(θ)` returns
  `(xx, yx, xy, yy, x0, y0) = (cos θ, sin θ, -sin θ, cos θ, 0, 0)`.

`math.cos`, `math.sin` and `math.pi` are abstract parameters
(`cosf`, `sinf`, `piv`) of the embedding.
-/

namespace Chalk

/-- The pycairo affine matrix (`cairo.Matrix`): fields as in cairo. -/
structure Matrix (R : Type) where
  xx : R
  yx : R
  xy : R
  yy : R
  x0 : R
  y0 : R
deriving DecidableEq

variable {R : Type} [Field R]

/-- `cairo.Matrix()` — the identity matrix. -/
def Matrix.identity : Matrix R := ⟨1, 0, 0, 1, 0, 0⟩

/-- cairo's point transformation: `x' = xx*x + xy*y + x0`, `y' = yx*x + yy*y + y0`. -/
def Matrix.apply (m : Matrix R) (p : R × R) : R × R :=
  (m.xx * p.1 + m.xy * p.2 + m.x0, m.yx * p.1 + m.yy * p.2 + m.y0)

/-- pycairo `a.multiply(b)` (cairo_matrix_multiply with `a` = receiver,
`b` = argument): the resulting transformation first applies `a` to the
coordinates and then applies `b`.  Field formulas are cairo's. -/
def Matrix.multiply (a b : Matrix R) : Matrix R where
  xx := a.xx * b.xx + a.yx * b.xy
  yx := a.xx * b.yx + a.yx * b.yy
  xy := a.xy * b.xx + a.yy * b.xy
  yy := a.xy * b.yx + a.yy * b.yy
  x0 := a.x0 * b.xx + a.y0 * b.xy + b.x0
  y0 := a.x0 * b.yx + a.y0 * b.yy + b.y0

/-- The in-place effect of pycairo `m.scale(sx, sy)` (cairo_matrix_scale):
the new transformation first scales the coordinates, then applies the
original transformation.  NOTE: the Python method's *return value* is
`None`, not this matrix. -/
def Matrix.scaleIP (m : Matrix R) (sx sy : R) : Matrix R :=
  Matrix.multiply ⟨sx, 0, 0, sy, 0, 0⟩ m

/-- The in-place effect of pycairo `m.translate(tx, ty)`
(cairo_matrix_translate): first translate, then apply the original
transformation.  The Python method's return value is `None`. -/
def Matrix.translateIP (m : Matrix R) (tx ty : R) : Matrix R :=
  Matrix.multiply ⟨1, 0, 0, 1, tx, ty⟩ m

/-- pycairo `cairo.Matrix.init_rotate(θ)`, with `cos θ` and `sin θ` passed
in by the caller of the embedding. -/
def Matrix.initRotate (c s : R) : Matrix R := ⟨c, s, -s, c, 0, 0⟩

/-- The `Transform` class hierarchy of `src/diagrams/__init__.py`
(`Identity`, `ReflectX`, `ReflectY`, `Rotate`, `Translate`, `Compose`)
as a sum type.  `Compose`'s constructor arguments are named `t` and `u`
in the source. -/
inductive Transform (R : Type) where
  | identity
  | reflectX
  | reflectY
  | rotate (θ : R)
  | translate (dx dy : R)
  | compose (t u : Transform R)
deriving DecidableEq

/-- Outcome of `Transform.__call__` in Python: a `cairo.Matrix`, the value
`None`, or a raised exception. -/
inductive CallResult (R : Type) where
  | mat (m : Matrix R)
  | pyNone
  | error
deriving DecidableEq

/-- `Transform.__call__` for every variant, from the source:

* `Identity`: `return cairo.Matrix()`.
* `ReflectX`: `matrix = cairo.Matrix(); matrix = matrix.scale(-1, 1);
  return matrix` — pycairo `Matrix.scale` mutates in place and returns
  `None`, so `matrix` is rebound to `None` and `None` is returned.
  (The computed matrix `Matrix.scaleIP Matrix.identity (-1) 1` is lost.)
* `ReflectY`: same slip with `scale(1, -1)`.
* `Rotate(θ)`: `return cairo.Matrix.init_rotate(θ)`.
* `Translate(dx, dy)`: `matrix = cairo.Matrix(); matrix.translate(dx, dy);
  return matrix` — here the in-place API is used correctly.
* `Compose(t, u)`: `return self.u().multiply(self.t())`.  If `u()` returns
  `None` the attribute access `.multiply` raises `AttributeError`; if `t()`
  returns `None`, `multiply(None)` raises `TypeError`; a raised exception
  propagates.  All three failure modes are collapsed into `.error`. -/
def Transform.call (cosf sinf : R → R) : Transform R → CallResult R
  | .identity => .mat Matrix.identity
  | .reflectX => .pyNone
  | .reflectY => .pyNone
  | .rotate θ => .mat (Matrix.initRotate (cosf θ) (sinf θ))
  | .translate dx dy => .mat (Matrix.identity.translateIP dx dy)
  | .compose t u =>
    match u.call cosf sinf, t.call cosf sinf with
    | .mat mu, .mat mt => .mat (mu.multiply mt)
    | _, _ => .error

/-- The `RGB` dataclass (`Color` variant); channel values are Python ints. -/
structure RGB where
  r : Int
  g : Int
  b : Int
deriving DecidableEq

/-- `RGB.to_float`: `(r / 255, g / 255, b / 255)`. -/
def RGB.to_float (c : RGB) : R × R × R :=
  ((c.r : R) / 255, (c.g : R) / 255, (c.b : R) / 255)

/-- Geometry data of the two `Primitive` subclasses: `Circle(radius)` and
`Rectangle(height, width)`, each with a `center` (Python `complex`,
modelled as a pair `(real, imag)`). -/
inductive Shape (R : Type) where
  | circle (radius : R) (center : R × R)
  | rectangle (height width : R) (center : R × R)
deriving DecidableEq

/-- The `Primitive` object state: `transform`, `fill_color`,
`stroke_color`, `stroke_width` from `Primitive.__init__`, plus the
subclass geometry. -/
structure Primitive (R : Type) where
  shape : Shape R
  transform : Transform R
  fill_color : Option (R × R × R)
  stroke_color : R × R × R
  stroke_width : R
deriving DecidableEq

/-- `Primitive.__init__` defaults: `transform = Identity()`,
`fill_color = None`, `stroke_color = (0.0, 0.0, 0.0)`,
`stroke_width = 0.01`. -/
def Primitive.init (shape : Shape R) : Primitive R :=
  ⟨shape, .identity, none, (0, 0, 0), 1 / 100⟩

/-- `Circle(radius)`: `super().__init__()`, `center = complex(0.0, 0.0)`. -/
def Circle (radius : R) : Primitive R :=
  Primitive.init (.circle radius (0, 0))

/-- `Rectangle(height, width)`: `super().__init__()`, `center = complex(0, 0)`. -/
def Rectangle (height width : R) : Primitive R :=
  Primitive.init (.rectangle height width (0, 0))

/-- `Primitive.rotate(θ)` in-place effect on the object state:
`self.transform = Compose(Rotate(θ), self.transform)`. -/
def Primitive.rotate (θ : R) (p : Primitive R) : Primitive R :=
  { p with transform := .compose (.rotate θ) p.transform }

/-- `Primitive.translate(dx, dy)` in-place effect:
`self.transform = Compose(Translate(dx, dy), self.transform)`. -/
def Primitive.translate (dx dy : R) (p : Primitive R) : Primitive R :=
  { p with transform := .compose (.translate dx dy) p.transform }

/-- `Primitive.set_fill_color(color)`: `self.fill_color = color.to_float()`. -/
def Primitive.set_fill_color (c : RGB) (p : Primitive R) : Primitive R :=
  { p with fill_color := some (RGB.to_float c) }

/-- `Primitive.set_stroke_color(color)`: `self.stroke_color = color.to_float()`. -/
def Primitive.set_stroke_color (c : RGB) (p : Primitive R) : Primitive R :=
  { p with stroke_color := RGB.to_float c }

/-- `Primitive.set_stroke_width(width)`: `self.stroke_width = width`. -/
def Primitive.set_stroke_width (w : R) (p : Primitive R) : Primitive R :=
  { p with stroke_width := w }

/-- Operations `Primitive.render` performs on the shared cairo drawing
context, recorded as a trace. -/
inductive CtxOp (R : Type) where
  | save
  | restore
  | ctransform (m : Matrix R)
  | setSourceRgb (r g b : R)
  | fillPreserve
  | setLineWidth (w : R)
  | stroke
  | arc (xc yc radius angle1 angle2 : R)
  | rectangle (x y w h : R)
deriving DecidableEq

/-- `Circle.render_shape` / `Rectangle.render_shape`, with `math.pi`
passed in as `piv`:

* Circle: `ctx.arc(center.real, center.imag, radius, 0, 2 * math.pi)`.
* Rectangle: `left = center.real - width / 2; top = center.imag - height / 2;
  ctx.rectangle(left, top, width, height)`. -/
def Shape.render_shape (piv : R) : Shape R → List (CtxOp R)
  | .circle radius center => [.arc center.1 center.2 radius 0 (2 * piv)]
  | .rectangle height width center =>
      [.rectangle (center.1 - width / 2) (center.2 - height / 2) width height]

/-- `Primitive.render(ctx)`, as the list of context operations it emits
together with whether it returned normally (`true`) or raised (`false`):

```
matrix = self.transform()          -- may raise (then nothing is emitted)
ctx.save()
ctx.transform(matrix)              -- raises TypeError if matrix is None
self.render_shape(ctx)
if self.fill_color:                -- a 3-tuple is always truthy, so this
    ctx.set_source_rgb(*self.fill_color)   -- tests `fill_color is not None`
    ctx.fill_preserve()
ctx.set_source_rgb(*self.stroke_color)
ctx.set_line_width(self.stroke_width)
ctx.stroke()
ctx.restore()
```
-/
def Primitive.render (cosf sinf : R → R) (piv : R) (p : Primitive R) :
    List (CtxOp R) × Bool :=
  match p.transform.call cosf sinf with
  | .error => ([], false)
  | .pyNone => ([.save], false)
  | .mat m =>
    ([.save, .ctransform m]
      ++ p.shape.render_shape piv
      ++ (match p.fill_color with
          | some fc => [.setSourceRgb fc.1 fc.2.1 fc.2.2, .fillPreserve]
          | none => [])
      ++ [.setSourceRgb p.stroke_color.1 p.stroke_color.2.1 p.stroke_color.2.2,
          .setLineWidth p.stroke_width, .stroke, .restore], true)

/-- Is the operation a `save`? -/
def CtxOp.isSave : CtxOp R → Bool
  | .save => true
  | _ => false

/-- Is the operation a `restore`? -/
def CtxOp.isRestore : CtxOp R → Bool
  | .restore => true
  | _ => false

/-- Is the operation a paint operation (source selection, fill, line
width, stroke) rather than pure geometry? -/
def CtxOp.isPaint : CtxOp R → Bool
  | .setSourceRgb _ _ _ => true
  | .fillPreserve => true
  | .setLineWidth _ => true
  | .stroke => true
  | _ => false

/-- The transform/paint portion of the cairo graphics state. -/
structure GState (R : Type) where
  ctm : Matrix R
  source : R × R × R
  lineWidth : R
deriving DecidableEq

/-- Effect of one context operation on the graphics state and the
save/restore stack (cairo semantics): `save` pushes a copy of the state,
`restore` pops one, `transform(m)` prepends `m` to the CTM (user-space
transformation placed before the existing one), paint operations set the
corresponding components; geometry emission (`arc`, `rectangle`),
`fill_preserve` and `stroke` do not change transform or paint state. -/
def CtxOp.exec : CtxOp R → GState R × List (GState R) → GState R × List (GState R)
  | .save, (g, st) => (g, g :: st)
  | .restore, (g, st) =>
    match st with
    | [] => (g, [])
    | h :: t => (h, t)
  | .ctransform m, (g, st) => ({ g with ctm := Matrix.multiply m g.ctm }, st)
  | .setSourceRgb r gr b, (g, st) => ({ g with source := (r, gr, b) }, st)
  | .setLineWidth w, (g, st) => ({ g with lineWidth := w }, st)
  | .fillPreserve, s => s
  | .stroke, s => s
  | .arc _ _ _ _ _, s => s
  | .rectangle _ _ _ _, s => s

/-- Run a trace of context operations from a given state. -/
def execOps (ops : List (CtxOp R)) (s : GState R × List (GState R)) :
    GState R × List (GState R) :=
  ops.foldl (fun acc op => op.exec acc) s

/-- Identifier of a `Primitive` object in the heap; Python `Diagram`s hold
references, so aliasing is modelled by shared identifiers. -/
abbrev PrimId := Nat

/-- The heap of `Primitive` objects, indexed by `PrimId`. -/
abbrev Store (R : Type) := List (Primitive R)

/-- Replace the object at index `i` by `f` of it (in-place mutation of one
heap cell; out-of-range indices leave the heap unchanged). -/
def Store.update : Store R → PrimId → (Primitive R → Primitive R) → Store R
  | [], _, _ => []
  | p :: ps, 0, f => f p :: ps
  | p :: ps, i + 1, f => p :: Store.update ps i f

/-- Store-level `Primitive.rotate`: mutates the receiver in place and
`return self` (the same object reference). -/
def Primitive.rotateS (θ : R) (i : PrimId) (s : Store R) : PrimId × Store R :=
  (i, Store.update s i (Primitive.rotate θ))

/-- Store-level `Primitive.translate`: mutates in place, returns `self`. -/
def Primitive.translateS (dx dy : R) (i : PrimId) (s : Store R) : PrimId × Store R :=
  (i, Store.update s i (Primitive.translate dx dy))

/-- Store-level `Primitive.set_fill_color`: mutates in place, returns `self`. -/
def Primitive.set_fill_colorS (c : RGB) (i : PrimId) (s : Store R) : PrimId × Store R :=
  (i, Store.update s i (Primitive.set_fill_color c))

/-- Store-level `Primitive.set_stroke_color`: mutates in place, returns `self`. -/
def Primitive.set_stroke_colorS (c : RGB) (i : PrimId) (s : Store R) : PrimId × Store R :=
  (i, Store.update s i (Primitive.set_stroke_color c))

/-- Store-level `Primitive.set_stroke_width`: mutates in place, returns `self`. -/
def Primitive.set_stroke_widthS (w : R) (i : PrimId) (s : Store R) : PrimId × Store R :=
  (i, Store.update s i (Primitive.set_stroke_width w))

/-- A `Diagram` holds an ordered sequence of references to `Primitive`
objects (`self.shapes`). -/
structure Diagram where
  shapes : List PrimId
deriving DecidableEq

/-- `Diagram.empty()`: `cls([])`. -/
def Diagram.empty : Diagram := ⟨[]⟩

/-- `Diagram.__add__`: `Diagram(self.shapes + other.shapes)` — builds a
new list; no primitive object is touched, so the heap passes through
unchanged. -/
def Diagram.add (d e : Diagram) (s : Store R) : Diagram × Store R :=
  (⟨d.shapes ++ e.shapes⟩, s)

/-- `Diagram.fmap(f)`: `Diagram([f(shape) for shape in self.shapes])` —
the list comprehension evaluates `f` on each reference left to right,
threading the heap (since `f` may mutate the objects; `f` is pure here, so
writing its application twice denotes the one Python call). -/
def Diagram.fmap (f : PrimId → Store R → PrimId × Store R) (d : Diagram)
    (s : Store R) : Diagram × Store R :=
  let r := d.shapes.foldl
    (fun (acc : List PrimId × Store R) i =>
      (acc.1 ++ [(f i acc.2).1], (f i acc.2).2))
    ([], s)
  (⟨r.1⟩, r.2)

/-- `Diagram.translate(dx, dy)`:
`self.fmap(lambda shape: shape.translate(dx, dy))`. -/
def Diagram.translate (dx dy : R) (d : Diagram) (s : Store R) : Diagram × Store R :=
  Diagram.fmap (Primitive.translateS dx dy) d s

/-- Repeated in-place update of the heap at each listed reference (the
heap effect of `Diagram.fmap` with an in-place `f`). -/
def Store.updateAll (g : Primitive R → Primitive R) (l : List PrimId)
    (s : Store R) : Store R :=
  l.foldl (fun st i => Store.update st i g) s

end Chalk

namespace Chalk

variable {R : Type} [Field R]

theorem Matrix.apply_multiply (a b : Matrix R) (p : R × R) :
    (a.multiply b).apply p = b.apply (a.apply p) := by
  cases p with
  | mk x y =>
    simp only [Matrix.apply, Matrix.multiply, Prod.mk.injEq]
    constructor <;> ring

theorem Matrix.multiply_identity (a : Matrix R) : a.multiply Matrix.identity = a := by
  cases a
  simp [Matrix.multiply, Matrix.identity]

theorem Matrix.identity_multiply (b : Matrix R) : Matrix.identity.multiply b = b := by
  cases b
  simp [Matrix.multiply, Matrix.identity]

theorem Store.length_update (s : Store R) (i : PrimId) (f : Primitive R → Primitive R) :
    (Store.update s i f).length = s.length := by
  induction s generalizing i with
  | nil => rfl
  | cons p ps ih =>
    cases i with
    | zero => rfl
    | succ n => simp [Store.update, ih]

theorem Store.get?_update (s : Store R) (i : PrimId) (f : Primitive R → Primitive R)
    (j : PrimId) :
    (Store.update s i f).get? j = if j = i then (s.get? i).map f else s.get? j := by
  induction s generalizing i j with
  | nil =>
    cases j <;> simp [Store.update]
  | cons p ps ih =>
    cases i with
    | zero =>
      cases j with
      | zero => rfl
      | succ m => simp [Store.update]
    | succ n =>
      cases j with
      | zero => simp [Store.update]
      | succ m => simpa [Store.update] using ih n m

theorem Store.updateAll_nil (g : Primitive R → Primitive R) (s : Store R) :
    Store.updateAll g [] s = s := rfl

theorem Store.updateAll_cons (g : Primitive R → Primitive R) (j : PrimId)
    (t : List PrimId) (s : Store R) :
    Store.updateAll g (j :: t) s = Store.updateAll g t (Store.update s j g) := rfl

theorem Store.get?_updateAll_not_mem (g : Primitive R → Primitive R)
    (l : List PrimId) (s : Store R) (i : PrimId) (h : i ∉ l) :
    (Store.updateAll g l s).get? i = s.get? i := by
  induction l generalizing s with
  | nil => rfl
  | cons j t ih =>
    have hij : i ≠ j := fun hh => h (hh ▸ List.mem_cons_self j t)
    have ht : i ∉ t := fun hh => h (List.mem_cons_of_mem j hh)
    rw [Store.updateAll_cons, ih _ ht, Store.get?_update]
    simp [hij]

theorem Store.get?_updateAll_mem (g : Primitive R → Primitive R)
    (l : List PrimId) (s : Store R) (i : PrimId) (hnd : l.Nodup) (h : i ∈ l) :
    (Store.updateAll g l s).get? i = (s.get? i).map g := by
  induction l generalizing s with
  | nil => cases h
  | cons j t ih =>
    have hjt : j ∉ t := (List.nodup_cons.mp hnd).1
    have hnt : t.Nodup := (List.nodup_cons.mp hnd).2
    by_cases hij : i = j
    · subst hij
      rw [Store.updateAll_cons, Store.get?_updateAll_not_mem g t _ i hjt,
        Store.get?_update]
      simp
    · have hit : i ∈ t := by
        rcases List.mem_cons.mp h with h1 | h2
        · exact absurd h1 hij
        · exact h2
      rw [Store.updateAll_cons, ih _ hnt hit, Store.get?_update]
      simp [hij]

theorem foldl_translateS (dx dy : R) (l : List PrimId)
    (acc : List PrimId) (s : Store R) :
    List.foldl (fun (a : List PrimId × Store R) i =>
        (a.1 ++ [(Primitive.translateS dx dy i a.2).1],
         (Primitive.translateS dx dy i a.2).2)) (acc, s) l
      = (acc ++ l, Store.updateAll (Primitive.translate dx dy) l s) := by
  induction l generalizing acc s with
  | nil => simp [Store.updateAll]
  | cons j t ih =>
    rw [List.foldl_cons]
    simp only [Primitive.translateS] at ih ⊢
    rw [ih, Store.updateAll_cons]
    simp

theorem Diagram.translate_eq (dx dy : R) (d : Diagram) (s : Store R) :
    Diagram.translate dx dy d s
      = (⟨d.shapes⟩, Store.updateAll (Primitive.translate dx dy) d.shapes s) := by
  unfold Diagram.translate Diagram.fmap
  rw [foldl_translateS]
  simp

/-- C1 (amended): for every pair of Transforms `first` (`t`) and `second`
(`u`) whose resolutions return matrices `mt` and `mu`, resolving
`Compose(first, second)` yields the pycairo product
`resolve(second).multiply(resolve(first))`, a matrix whose action on any
point equals applying `second`'s transform to the point and then applying
`first`'s transform to the result. -/
theorem C1_compose_resolution (cosf sinf : R → R) (t u : Transform R)
    (mt mu : Matrix R) (ht : t.call cosf sinf = .mat mt)
    (hu : u.call cosf sinf = .mat mu) :
    (Transform.compose t u).call cosf sinf = .mat (mu.multiply mt)
    ∧ ∀ p : R × R, (mu.multiply mt).apply p = mt.apply (mu.apply p) := by
  refine ⟨?_, fun p => Matrix.apply_multiply mu mt p⟩
  simp [Transform.call, ht, hu]

/-- C1 counterexample: take `first = Translate(1, 0)` and
`second = Rotate(θ)`, resolved with `math.cos`/`math.sin` modelled by the
constant functions giving `cos θ = 0`, `sin θ = 1` (i.e. θ = π/2).  The
matrix resolved from `Compose(first, second)` sends the point `(0, 0)` to
`(1, 0)`, whereas applying `first`'s transform to `(0, 0)` and then
`second`'s transform to the result gives `(0, 1)`; the action order
stated by the claim is therefore refuted. -/
theorem C1_compose_order_counterexample :
    (Transform.compose (Transform.translate (1 : ℚ) 0) (Transform.rotate 0)).call
        (fun _ => 0) (fun _ => 1)
      = CallResult.mat ⟨0, 1, -1, 0, 1, 0⟩
    ∧ Matrix.apply (⟨0, 1, -1, 0, 1, 0⟩ : Matrix ℚ) (0, 0) = (1, 0)
    ∧ (Transform.translate (1 : ℚ) 0).call (fun _ => 0) (fun _ => 1)
        = CallResult.mat ⟨1, 0, 0, 1, 1, 0⟩
    ∧ (Transform.rotate (0 : ℚ)).call (fun _ => 0) (fun _ => 1)
        = CallResult.mat ⟨0, 1, -1, 0, 0, 0⟩
    ∧ Matrix.apply (⟨0, 1, -1, 0, 0, 0⟩ : Matrix ℚ)
        (Matrix.apply (⟨1, 0, 0, 1, 1, 0⟩ : Matrix ℚ) (0, 0)) = (0, 1)
    ∧ ((1, 0) : ℚ × ℚ) ≠ (0, 1) := by
  refine ⟨?_, ?_, ?_, ?_, ?_, ?_⟩ <;>
    norm_num [Transform.call, Matrix.translateIP, Matrix.initRotate,
      Matrix.identity, Matrix.multiply, Matrix.apply, Prod.ext_iff]

/-- C1 witness: the amended statement evaluated at
`first = Translate(1, 2)`, `second = Translate(3, 4)` and the point
`(10, 20)`. -/
theorem C1_compose_resolution_witness :
    (Transform.translate (1 : ℚ) 2).call (fun x => x) (fun x => x)
        = CallResult.mat (Matrix.translateIP Matrix.identity 1 2)
    ∧ (Transform.compose (Transform.translate (1 : ℚ) 2) (Transform.translate 3 4)).call
        (fun x => x) (fun x => x)
      = CallResult.mat ((Matrix.translateIP Matrix.identity 3 4).multiply
          (Matrix.translateIP Matrix.identity 1 2))
    ∧ ((Matrix.translateIP (Matrix.identity (R := ℚ)) 3 4).multiply
          (Matrix.translateIP Matrix.identity 1 2)).apply (10, 20)
      = (Matrix.translateIP (Matrix.identity (R := ℚ)) 1 2).apply
          ((Matrix.translateIP Matrix.identity 3 4).apply (10, 20)) := by
  have h := C1_compose_resolution (fun x : ℚ => x) (fun x => x)
    (Transform.translate 1 2) (Transform.translate 3 4) _ _ rfl rfl
  exact ⟨rfl, h.1, h.2 (10, 20)⟩

/-- C2 (code bug): resolving `ReflectX` (and likewise `ReflectY`) returns
the Python value `None`, not a matrix — pycairo's `Matrix.scale` mutates
the matrix in place and returns `None`, and `ReflectX.__call__` rebinds
`matrix` to that `None` before returning it.  The matrix the method
computes and then loses is exactly the claimed `scale(-1, 1)`
(resp. `scale(1, -1)`). -/
theorem C2_reflect_returns_none :
    (Transform.reflectX : Transform ℚ).call (fun x => x) (fun x => x) = CallResult.pyNone
    ∧ (Transform.reflectY : Transform ℚ).call (fun x => x) (fun x => x) = CallResult.pyNone
    ∧ Matrix.scaleIP (Matrix.identity (R := ℚ)) (-1) 1 = ⟨-1, 0, 0, 1, 0, 0⟩
    ∧ Matrix.scaleIP (Matrix.identity (R := ℚ)) 1 (-1) = ⟨1, 0, 0, -1, 0, 0⟩ := by
  refine ⟨rfl, rfl, ?_, ?_⟩ <;>
    norm_num [Matrix.scaleIP, Matrix.multiply, Matrix.identity]

/-- C8 (amended): for every Transform `t` whose resolution returns a
matrix `m`, resolving `Compose(Identity, t)` yields exactly `m`, and
resolving `Compose(t, Identity)` likewise.  (When `t` is `ReflectX` or
`ReflectY` the resolution returns `None` and both compositions raise
instead — see the counterexample.) -/
theorem C8_identity_neutral (cosf sinf : R → R) (t : Transform R) (m : Matrix R)
    (h : t.call cosf sinf = .mat m) :
    (Transform.compose Transform.identity t).call cosf sinf = .mat m
    ∧ (Transform.compose t Transform.identity).call cosf sinf = .mat m := by
  constructor
  · simp [Transform.call, h, Matrix.multiply_identity]
  · simp [Transform.call, h, Matrix.identity_multiply]

/-- C8 counterexample: at `t = ReflectX` the claim fails — `ReflectX`'s
resolution returns `None`, so resolving `Compose(Identity, ReflectX)` and
`Compose(ReflectX, Identity)` raises and yields no matrix at all. -/
theorem C8_identity_counterexample :
    (Transform.compose Transform.identity (Transform.reflectX : Transform ℚ)).call
        (fun x => x) (fun x => x) = CallResult.error
    ∧ (Transform.compose (Transform.reflectX : Transform ℚ) Transform.identity).call
        (fun x => x) (fun x => x) = CallResult.error
    ∧ (Transform.reflectX : Transform ℚ).call (fun x => x) (fun x => x)
        = CallResult.pyNone := by
  decide

/-- C8 witness: the amended statement evaluated at `t = Rotate(5)`. -/
theorem C8_identity_neutral_witness :
    (Transform.rotate (5 : ℚ)).call (fun x => x) (fun x => x)
        = CallResult.mat (Matrix.initRotate 5 5)
    ∧ (Transform.compose Transform.identity (Transform.rotate (5 : ℚ))).call
        (fun x => x) (fun x => x) = CallResult.mat (Matrix.initRotate 5 5)
    ∧ (Transform.compose (Transform.rotate (5 : ℚ)) Transform.identity).call
        (fun x => x) (fun x => x) = CallResult.mat (Matrix.initRotate 5 5) := by
  have h := C8_identity_neutral (fun x : ℚ => x) (fun x => x)
    (Transform.rotate 5) (Matrix.initRotate 5 5) rfl
  exact ⟨rfl, h.1, h.2⟩

/-- C3 (amended): `D.translate(dx, dy)` returns a new `Diagram` listing
the same `Primitive` objects as `D` (in order), each of which has been
mutated in place by `Primitive.translate(dx, dy)`; primitives not
referenced by `D` are untouched.  Because the objects are shared rather
than copied, the original diagram `D` is NOT left unchanged: its
primitives' transforms are updated as well. -/
theorem C3_translate_shared_mutation (dx dy : R) (d : Diagram) (s : Store R)
    (hnd : d.shapes.Nodup) :
    (Diagram.translate dx dy d s).1.shapes = d.shapes
    ∧ (∀ i, i ∈ d.shapes →
        (Diagram.translate dx dy d s).2.get? i
          = (s.get? i).map (Primitive.translate dx dy))
    ∧ ∀ i, i ∉ d.shapes →
        (Diagram.translate dx dy d s).2.get? i = s.get? i := by
  rw [Diagram.translate_eq]
  exact ⟨rfl, fun i hi => Store.get?_updateAll_mem _ _ _ _ hnd hi,
    fun i hi => Store.get?_updateAll_not_mem _ _ _ _ hi⟩

/-- C3 counterexample: a diagram holding one `Circle` (transform
`Identity`) is translated by `(1, 2)`; afterwards the primitive that the
ORIGINAL diagram references carries transform
`Compose(Translate(1, 2), Identity) ≠ Identity`, so the original
diagram's primitives are not "as before the call". -/
theorem C3_translate_mutates_counterexample :
    ((Diagram.translate (1 : ℚ) 2 ⟨[0]⟩ [Circle 1]).2.get? 0).map
        (fun p => p.transform)
      = some (Transform.compose (Transform.translate 1 2) Transform.identity)
    ∧ (Circle (1 : ℚ)).transform = Transform.identity
    ∧ Transform.compose (Transform.translate (1 : ℚ) 2) Transform.identity
        ≠ Transform.identity := by
  refine ⟨rfl, rfl, ?_⟩
  intro hc
  exact Transform.noConfusion hc

/-- C3 witness: the amended statement evaluated on a one-circle diagram
over `ℚ`. -/
theorem C3_translate_shared_mutation_witness :
    ([0] : List PrimId).Nodup
    ∧ (Diagram.translate (1 : ℚ) 2 ⟨[0]⟩ [Circle 1]).1.shapes = [0]
    ∧ (Diagram.translate (1 : ℚ) 2 ⟨[0]⟩ [Circle 1]).2.get? 0
        = (([Circle 1] : Store ℚ).get? 0).map (Primitive.translate 1 2) := by
  have h := C3_translate_shared_mutation (1 : ℚ) 2 ⟨[0]⟩ [Circle 1] (by decide)
  exact ⟨by decide, h.1, h.2.1 0 (by decide)⟩

/-- C4 (amended): `Primitive.rotate(θ)` replaces the transform by
`Compose(Rotate(θ), old)` and `Primitive.translate(dx, dy)` by
`Compose(Translate(dx, dy), old)`; each of the five mutating operations
updates exactly one field and leaves the other fields unchanged, and the
returned value reflects the new setting.  On resolution, the newly
prepended operation is applied to the local geometry AFTER the previously
accumulated transform (so operations take effect in call order), not
before it as the claim stated. -/
theorem C4_primitive_ops (cosf sinf : R → R) (p : Primitive R) (θ dx dy wd : R)
    (c c2 : RGB) (macc : Matrix R)
    (h : p.transform.call cosf sinf = .mat macc) :
    (p.rotate θ).transform = Transform.compose (Transform.rotate θ) p.transform
    ∧ (p.rotate θ).shape = p.shape
    ∧ (p.rotate θ).fill_color = p.fill_color
    ∧ (p.rotate θ).stroke_color = p.stroke_color
    ∧ (p.rotate θ).stroke_width = p.stroke_width
    ∧ (p.translate dx dy).transform
        = Transform.compose (Transform.translate dx dy) p.transform
    ∧ (p.translate dx dy).shape = p.shape
    ∧ (p.translate dx dy).fill_color = p.fill_color
    ∧ (p.translate dx dy).stroke_color = p.stroke_color
    ∧ (p.translate dx dy).stroke_width = p.stroke_width
    ∧ (p.set_fill_color c).fill_color = some (RGB.to_float c)
    ∧ (p.set_fill_color c).shape = p.shape
    ∧ (p.set_fill_color c).transform = p.transform
    ∧ (p.set_fill_color c).stroke_color = p.stroke_color
    ∧ (p.set_fill_color c).stroke_width = p.stroke_width
    ∧ (p.set_stroke_color c2).stroke_color = RGB.to_float c2
    ∧ (p.set_stroke_color c2).shape = p.shape
    ∧ (p.set_stroke_color c2).transform = p.transform
    ∧ (p.set_stroke_color c2).fill_color = p.fill_color
    ∧ (p.set_stroke_color c2).stroke_width = p.stroke_width
    ∧ (p.set_stroke_width wd).stroke_width = wd
    ∧ (p.set_stroke_width wd).shape = p.shape
    ∧ (p.set_stroke_width wd).transform = p.transform
    ∧ (p.set_stroke_width wd).fill_color = p.fill_color
    ∧ (p.set_stroke_width wd).stroke_color = p.stroke_color
    ∧ (p.rotate θ).transform.call cosf sinf
        = .mat (macc.multiply (Matrix.initRotate (cosf θ) (sinf θ)))
    ∧ (∀ q : R × R, (macc.multiply (Matrix.initRotate (cosf θ) (sinf θ))).apply q
        = (Matrix.initRotate (cosf θ) (sinf θ)).apply (macc.apply q))
    ∧ (p.translate dx dy).transform.call cosf sinf
        = .mat (macc.multiply (Matrix.identity.translateIP dx dy))
    ∧ ∀ q : R × R, (macc.multiply (Matrix.identity.translateIP dx dy)).apply q
        = (Matrix.identity.translateIP dx dy).apply (macc.apply q) := by
  refine ⟨rfl, rfl, rfl, rfl, rfl, rfl, rfl, rfl, rfl, rfl, rfl, rfl, rfl, rfl,
    rfl, rfl, rfl, rfl, rfl, rfl, rfl, rfl, rfl, rfl, rfl, ?_, ?_, ?_, ?_⟩
  · simp [Primitive.rotate, Transform.call, h]
  · exact fun q => Matrix.apply_multiply _ _ q
  · simp [Primitive.translate, Transform.call, h]
  · exact fun q => Matrix.apply_multiply _ _ q

/-- C4 counterexample: starting from `Circle(1)` (transform `Identity`),
call `rotate(θ)` and then `translate(1, 0)`, with `math.cos`/`math.sin`
modelled by the constant functions giving `cos θ = 0`, `sin θ = 1`
(θ = π/2).  The accumulated transform resolves to a matrix sending the
local origin `(0, 0)` to `(1, 0)` — the rotation acts first and the newly
prepended translation acts after it.  If the new operation were "applied
to local geometry before the previously accumulated transform", as the
claim states, the origin would go to `(0, 1)` instead. -/
theorem C4_order_counterexample :
    (((Circle (1 : ℚ)).rotate 0).translate 1 0).transform.call
        (fun _ => 0) (fun _ => 1)
      = CallResult.mat ⟨0, 1, -1, 0, 1, 0⟩
    ∧ Matrix.apply (⟨0, 1, -1, 0, 1, 0⟩ : Matrix ℚ) (0, 0) = (1, 0)
    ∧ ((Circle (1 : ℚ)).rotate 0).transform.call (fun _ => 0) (fun _ => 1)
        = CallResult.mat ⟨0, 1, -1, 0, 0, 0⟩
    ∧ (Transform.translate (1 : ℚ) 0).call (fun _ => 0) (fun _ => 1)
        = CallResult.mat ⟨1, 0, 0, 1, 1, 0⟩
    ∧ Matrix.apply (⟨0, 1, -1, 0, 0, 0⟩ : Matrix ℚ)
        (Matrix.apply (⟨1, 0, 0, 1, 1, 0⟩ : Matrix ℚ) (0, 0)) = (0, 1)
    ∧ ((1, 0) : ℚ × ℚ) ≠ (0, 1) := by
  refine ⟨?_, ?_, ?_, ?_, ?_, ?_⟩ <;>
    norm_num [Circle, Primitive.init, Primitive.rotate, Primitive.translate,
      Transform.call, Matrix.translateIP, Matrix.initRotate, Matrix.identity,
      Matrix.multiply, Matrix.apply, Prod.ext_iff]

/-- C4 witness: the amended statement evaluated at `Rectangle(2, 3)` with
`rotate(2)`, `translate(3, 4)`, `set_fill_color(RGB(1, 2, 3))` and the
point `(1, 1)`. -/
theorem C4_primitive_ops_witness :
    (Rectangle (2 : ℚ) 3).transform.call (fun x => x) (fun x => x)
        = CallResult.mat Matrix.identity
    ∧ ((Rectangle (2 : ℚ) 3).rotate 2).transform
        = Transform.compose (Transform.rotate 2) (Rectangle (2 : ℚ) 3).transform
    ∧ ((Rectangle (2 : ℚ) 3).set_fill_color ⟨1, 2, 3⟩).fill_color
        = some (RGB.to_float ⟨1, 2, 3⟩)
    ∧ ((Rectangle (2 : ℚ) 3).translate 3 4).transform.call (fun x => x) (fun x => x)
        = CallResult.mat (Matrix.identity.multiply (Matrix.identity.translateIP 3 4))
    ∧ (Matrix.identity.multiply ((Matrix.identity (R := ℚ)).translateIP 3 4)).apply (1, 1)
        = ((Matrix.identity (R := ℚ)).translateIP 3 4).apply
            (Matrix.identity.apply (1, 1)) := by
  have h := C4_primitive_ops (fun x : ℚ => x) (fun x => x) (Rectangle 2 3)
    2 3 4 7 ⟨1, 2, 3⟩ ⟨4, 5, 6⟩ Matrix.identity rfl
  obtain ⟨h1, -, -, -, -, -, -, -, -, -, h11, -, -, -, -, -, -, -, -, -, -, -,
    -, -, -, -, -, h28, h29⟩ := h
  exact ⟨rfl, h1, h11, h28, h29 (1, 1)⟩

/-- C10 (confirmed): each of the five mutating `Primitive` operations
mutates the receiver object in the heap and returns the very same object
reference (not a copy: the heap keeps its length, only the receiver's
cell changes, every other cell is untouched), so any alias of the
primitive observes the updated settings. -/
theorem C10_ops_in_place (θ dx dy wd : R) (c c2 : RGB) (i j : PrimId)
    (s : Store R) :
    (Primitive.rotateS θ i s).1 = i
    ∧ (Primitive.translateS dx dy i s).1 = i
    ∧ (Primitive.set_fill_colorS c i s).1 = i
    ∧ (Primitive.set_stroke_colorS c2 i s).1 = i
    ∧ (Primitive.set_stroke_widthS wd i s).1 = i
    ∧ (Primitive.rotateS θ i s).2.length = s.length
    ∧ (Primitive.rotateS θ i s).2.get? j
        = (if j = i then (s.get? i).map (Primitive.rotate θ) else s.get? j)
    ∧ (Primitive.translateS dx dy i s).2.get? j
        = (if j = i then (s.get? i).map (Primitive.translate dx dy) else s.get? j)
    ∧ (Primitive.set_fill_colorS c i s).2.get? j
        = (if j = i then (s.get? i).map (Primitive.set_fill_color c) else s.get? j)
    ∧ (Primitive.set_stroke_colorS c2 i s).2.get? j
        = (if j = i then (s.get? i).map (Primitive.set_stroke_color c2) else s.get? j)
    ∧ (Primitive.set_stroke_widthS wd i s).2.get? j
        = (if j = i then (s.get? i).map (Primitive.set_stroke_width wd) else s.get? j) := by
  refine ⟨rfl, rfl, rfl, rfl, rfl, Store.length_update s i _,
    ?_, ?_, ?_, ?_, ?_⟩ <;> exact Store.get?_update s i _ j

/-- C7 (confirmed): `Diagram.empty() + D = D` and `D + Diagram.empty() = D`
by structural equality of the shape sequences, and `+` leaves the
primitive heap (and hence both operands' contents) untouched. -/
theorem C7_empty_identity (d : Diagram) (s : Store R) :
    Diagram.add Diagram.empty d s = (d, s)
    ∧ Diagram.add d Diagram.empty s = (d, s) := by
  refine ⟨rfl, ?_⟩
  simp [Diagram.add, Diagram.empty]

/-- C9 (confirmed): `Circle.render_shape` emits exactly one arc at the
circle's local center with its radius, sweeping from `0` to `2π`, and
`Rectangle.render_shape` emits exactly one rectangle with left edge
`center.x − width/2`, top edge `center.y − height/2`, and the given width
and height; neither emits any paint operation. -/
theorem C9_render_shape_geometry (piv radius hh ww cx cy : R) :
    Shape.render_shape piv (Shape.circle radius (cx, cy))
        = [CtxOp.arc cx cy radius 0 (2 * piv)]
    ∧ Shape.render_shape piv (Shape.rectangle hh ww (cx, cy))
        = [CtxOp.rectangle (cx - ww / 2) (cy - hh / 2) ww hh]
    ∧ List.countP (fun op => CtxOp.isPaint op)
        (Shape.render_shape piv (Shape.circle radius (cx, cy))) = 0
    ∧ List.countP (fun op => CtxOp.isPaint op)
        (Shape.render_shape piv (Shape.rectangle hh ww (cx, cy))) = 0 := by
  exact ⟨rfl, rfl, rfl, rfl⟩

theorem Primitive.render_mat (cosf sinf : R → R) (piv : R) (p : Primitive R)
    (m : Matrix R) (h : p.transform.call cosf sinf = .mat m) :
    p.render cosf sinf piv
      = ([.save, .ctransform m] ++ p.shape.render_shape piv
          ++ (match p.fill_color with
              | some fc => [.setSourceRgb fc.1 fc.2.1 fc.2.2, .fillPreserve]
              | none => [])
          ++ [.setSourceRgb p.stroke_color.1 p.stroke_color.2.1 p.stroke_color.2.2,
              .setLineWidth p.stroke_width, .stroke, .restore], true) := by
  unfold Primitive.render
  rw [h]

theorem Shape.fillPreserve_not_mem (piv : R) (sh : Shape R) :
    CtxOp.fillPreserve ∉ sh.render_shape piv := by
  cases sh <;> simp [Shape.render_shape]

/-- C5 (confirmed, for renders whose transform resolution yields a
matrix — the only ones that reach the style section): the fill pass
(setting the paint source to `fill_color`, then `fill_preserve`) appears
in the emitted trace if and only if `fill_color` is set, an unset fill
color merely skipping that pass, and the stroke pass (paint source set to
`stroke_color`, line width set to `stroke_width`, then `stroke`) is
always performed, whether or not a fill occurred. -/
theorem C5_fill_iff_stroke_always (cosf sinf : R → R) (piv : R)
    (p : Primitive R) (m : Matrix R)
    (h : p.transform.call cosf sinf = .mat m) :
    (p.fill_color.isSome ↔ CtxOp.fillPreserve ∈ (p.render cosf sinf piv).1)
    ∧ (∀ fc : R × R × R, p.fill_color = some fc →
        List.IsInfix [CtxOp.setSourceRgb fc.1 fc.2.1 fc.2.2, CtxOp.fillPreserve]
          (p.render cosf sinf piv).1)
    ∧ List.IsInfix
        [CtxOp.setSourceRgb p.stroke_color.1 p.stroke_color.2.1 p.stroke_color.2.2,
         CtxOp.setLineWidth p.stroke_width, CtxOp.stroke]
        (p.render cosf sinf piv).1 := by
  rw [Primitive.render_mat cosf sinf piv p m h]
  refine ⟨?_, ?_, ?_⟩
  · cases hfc : p.fill_color with
    | none => simp [Shape.fillPreserve_not_mem]
    | some fc => simp
  · intro fc hfc
    rw [hfc]
    exact ⟨[CtxOp.save, CtxOp.ctransform m] ++ p.shape.render_shape piv,
      [CtxOp.setSourceRgb p.stroke_color.1 p.stroke_color.2.1 p.stroke_color.2.2,
       CtxOp.setLineWidth p.stroke_width, CtxOp.stroke, CtxOp.restore], by simp⟩
  · cases hfc : p.fill_color with
    | none =>
      exact ⟨[CtxOp.save, CtxOp.ctransform m] ++ p.shape.render_shape piv,
        [CtxOp.restore], by simp⟩
    | some fc =>
      exact ⟨[CtxOp.save, CtxOp.ctransform m] ++ p.shape.render_shape piv
          ++ [CtxOp.setSourceRgb fc.1 fc.2.1 fc.2.2, CtxOp.fillPreserve],
        [CtxOp.restore], by simp⟩

/-- C5 witness: the statement evaluated on a `Circle(1)` with
`fill_color = RGB(255, 0, 0)` (and on its stroke settings). -/
theorem C5_fill_iff_stroke_always_witness :
    ((Circle (1 : ℚ)).set_fill_color ⟨255, 0, 0⟩).transform.call
        (fun x => x) (fun x => x) = CallResult.mat Matrix.identity
    ∧ (((Circle (1 : ℚ)).set_fill_color ⟨255, 0, 0⟩).fill_color.isSome
        ↔ CtxOp.fillPreserve
            ∈ (((Circle (1 : ℚ)).set_fill_color ⟨255, 0, 0⟩).render
                (fun x => x) (fun x => x) 3).1)
    ∧ List.IsInfix
        [CtxOp.setSourceRgb (RGB.to_float (R := ℚ) ⟨255, 0, 0⟩).1
            (RGB.to_float (R := ℚ) ⟨255, 0, 0⟩).2.1
            (RGB.to_float (R := ℚ) ⟨255, 0, 0⟩).2.2,
         CtxOp.fillPreserve]
        (((Circle (1 : ℚ)).set_fill_color ⟨255, 0, 0⟩).render
          (fun x => x) (fun x => x) 3).1
    ∧ List.IsInfix
        [CtxOp.setSourceRgb (0 : ℚ) 0 0, CtxOp.setLineWidth (1 / 100), CtxOp.stroke]
        (((Circle (1 : ℚ)).set_fill_color ⟨255, 0, 0⟩).render
          (fun x => x) (fun x => x) 3).1 := by
  have h := C5_fill_iff_stroke_always (fun x : ℚ => x) (fun x => x) 3
    ((Circle 1).set_fill_color ⟨255, 0, 0⟩) Matrix.identity rfl
  exact ⟨rfl, h.1, h.2.1 (RGB.to_float ⟨255, 0, 0⟩) rfl, h.2.2⟩

/-- C6 (amended): every call to `Primitive.render` whose transform
resolution yields a matrix emits a trace that begins with exactly one
`save` and ends with exactly one matching `restore` (the restore present
even when no fill was requested), and executing the trace returns the
context's transform/paint state and save-stack to exactly their initial
values, so no state leaks to the next primitive's render.  A call whose
transform resolution returns `None` (the Reflect bug) instead raises
after emitting a single unmatched `save` — see the counterexample. -/
theorem C6_render_balanced (cosf sinf : R → R) (piv : R) (p : Primitive R)
    (m : Matrix R) (h : p.transform.call cosf sinf = .mat m) :
    (p.render cosf sinf piv).2 = true
    ∧ (p.render cosf sinf piv).1.head? = some CtxOp.save
    ∧ (p.render cosf sinf piv).1.getLast? = some CtxOp.restore
    ∧ List.countP (fun op => CtxOp.isSave op) (p.render cosf sinf piv).1 = 1
    ∧ List.countP (fun op => CtxOp.isRestore op) (p.render cosf sinf piv).1 = 1
    ∧ ∀ (g : GState R) (st : List (GState R)),
        execOps (p.render cosf sinf piv).1 (g, st) = (g, st) := by
  rw [Primitive.render_mat cosf sinf piv p m h]
  cases hsh : p.shape <;> cases hfc : p.fill_color <;>
    exact ⟨rfl, rfl, rfl, rfl, rfl, fun g st => rfl⟩

/-- C6 counterexample: rendering a primitive whose transform is
`ReflectX` (resolution returns `None`, so `ctx.transform(None)` raises
after `ctx.save()`): the call emits exactly one `save` and no matching
`restore`, violating "exactly one save and one matching restore" on this
call. -/
theorem C6_reflect_render_counterexample :
    Primitive.render (fun x => x) (fun x => x) 3
        { Circle (1 : ℚ) with transform := Transform.reflectX }
      = ([CtxOp.save], false)
    ∧ List.countP (fun op => CtxOp.isRestore op) [(CtxOp.save : CtxOp ℚ)] = 0 := by
  exact ⟨rfl, rfl⟩

/-- C6 witness: the amended statement evaluated on `Circle(1)` with the
initial graphics state `(identity CTM, black source, line width 1)` and
an empty save-stack. -/
theorem C6_render_balanced_witness :
    (Circle (1 : ℚ)).transform.call (fun x => x) (fun x => x)
        = CallResult.mat Matrix.identity
    ∧ ((Circle (1 : ℚ)).render (fun x => x) (fun x => x) 3).2 = true
    ∧ ((Circle (1 : ℚ)).render (fun x => x) (fun x => x) 3).1.head?
        = some CtxOp.save
    ∧ ((Circle (1 : ℚ)).render (fun x => x) (fun x => x) 3).1.getLast?
        = some CtxOp.restore
    ∧ List.countP (fun op => CtxOp.isSave op)
        ((Circle (1 : ℚ)).render (fun x => x) (fun x => x) 3).1 = 1
    ∧ List.countP (fun op => CtxOp.isRestore op)
        ((Circle (1 : ℚ)).render (fun x => x) (fun x => x) 3).1 = 1
    ∧ execOps ((Circle (1 : ℚ)).render (fun x => x) (fun x => x) 3).1
        (⟨Matrix.identity, (0, 0, 0), 1⟩, [])
      = (⟨Matrix.identity, (0, 0, 0), 1⟩, []) := by
  have h := C6_render_balanced (fun x : ℚ => x) (fun x => x) 3 (Circle 1)
    Matrix.identity rfl
  exact ⟨rfl, h.1, h.2.1, h.2.2.1, h.2.2.2.1, h.2.2.2.2.1,
    h.2.2.2.2.2 ⟨Matrix.identity, (0, 0, 0), 1⟩ []⟩

end Chalk
